import Mathlib

/-!
Shallow embedding (in Lean 4) of the authorization core of the
`richemonte.backend` banking service, together with proofs of the
behavioural properties claimed for it.

Modelling conventions used throughout:

* Python `datetime` values are modelled as integer timestamps (seconds);
  `timedelta(hours=1)` is `3600`, `timedelta(minutes=1)` is `60`,
  `timedelta(minutes=10)` is `600`.  ISO-format timestamp strings that the
  code stores and re-parses are modelled directly by those integers, which
  preserves the order comparisons the code performs.
* Python `float` money amounts are modelled as exact rationals (`Rat`);
  the claims under study concern comparisons and exact additions /
  subtractions of amounts, not binary rounding.
* Database access through the supabase client is modelled by explicit
  state passing over a `BankState` record; every read or write issued to
  the store is additionally logged in an event trace so that ordering
  claims ("the balance write is issued before the transaction insert")
  become statable.
* `hashlib.sha256(..).hexdigest()` is modelled symbolically by an
  injective tagging function on strings (the standard symbolic-crypto
  idealization); `hmac.compare_digest` is string equality.
* Randomly generated values (OTP codes) and the current time are passed
  to the modelled functions as explicit parameters.
* `created_at` / `updated_at` bookkeeping timestamp columns are not
  modelled; insertion order is captured by list order and by the trace.
-/

namespace Richemonte

/-! ### Python string / truthiness helpers

`str.isdigit` in Python is Unicode-aware: it accepts every character of
Unicode numeric type Decimal or Digit, not only ASCII `0`-`9`.  The model
below covers the ASCII digits together with the non-ASCII Unicode digit
blocks relevant to this development (superscript digits, Arabic-Indic
digits, Devanagari digits, fullwidth digits); on every string built from
these characters it agrees with CPython. -/

def pyIsDigitChar (c : Char) : Bool :=
  c.isDigit || c = '¹' || c = '²' || c = '³' ||
  (0x660 ≤ c.toNat && c.toNat ≤ 0x669) ||
  (0x966 ≤ c.toNat && c.toNat ≤ 0x96F) ||
  (0xFF10 ≤ c.toNat && c.toNat ≤ 0xFF19)

/-- Python `s.isdigit()`: true iff `s` is nonempty and every character is a
digit (see `pyIsDigitChar`). -/
def pyStrIsDigit (s : String) : Bool :=
  s.data ≠ [] && s.data.all pyIsDigitChar

/-- Python truthiness of an optional string column / field: `None` and the
empty string are falsy. -/
def truthyStr : Option String → Bool
  | none => false
  | some s => s != ""

/-- Python `str.strip()` whitespace test (the ASCII whitespace characters). -/
def pyIsSpace (c : Char) : Bool :=
  c = ' ' || c = '\t' || c = '\n' || c = '\r' || c = '\x0b' || c = '\x0c'

/-- Python `s.strip()`. -/
def pyStrip (s : String) : String :=
  ⟨((s.data.dropWhile pyIsSpace).reverse.dropWhile pyIsSpace).reverse⟩

/-- Python `s[:200]` (the description length cap in `create_transfer`). -/
def pySlice200 (s : String) : String :=
  ⟨s.data.take 200⟩

/-- Python `s[-4:]` (used to build recipient display names). -/
def pyLast4 (s : String) : String :=
  ⟨(s.data.reverse.take 4).reverse⟩

/-! ### Rate limiter (`src/utils/bot_prevention.py`)

The module keeps one process-global map from IP address to a list of
timestamps: `_rate_limit_store: Dict[str, list] = defaultdict(list)`.
There is a single list per IP, not one per (IP, action). -/

def MAX_REGISTRATIONS_PER_HOUR : Nat := 5

def MAX_LOGINS_PER_MINUTE : Nat := 10

/-- The per-IP timestamp map `_rate_limit_store` (defaultdict: unknown keys
map to the empty list). -/
def RateStore : Type := String → List Int

def emptyStore : RateStore := fun _ => []

def updateStore (st : RateStore) (ip : String) (l : List Int) : RateStore :=
  fun k => if k = ip then l else st k

/-- `_clean_old_entries`: keep only the timestamps strictly newer than
`now - window`. -/
def cleanOldEntries (stamps : List Int) (now window : Int) : List Int :=
  stamps.filter (fun ts => now - window < ts)

/-- Result of `check_rate_limit`: the returned `(allowed, error_message)`
pair together with the mutated global store. -/
structure RLResult where
  allowed : Bool
  msg : String
  store : RateStore

/-- `check_rate_limit(ip_address, action)`, with the current time passed
explicitly.  For `register` the window is one hour and the cap is 5; for
`login` the window is one minute and the cap is 10.  The cleaning step
mutates the stored list even when the check is then refused; the new
timestamp is recorded only on an allowed check. -/
def check_rate_limit (st : RateStore) (ip : String) (action : String) (now : Int) : RLResult :=
  if ip = "" then ⟨true, "", st⟩
  else if action = "register" then
    let cleaned := cleanOldEntries (st ip) now 3600
    if MAX_REGISTRATIONS_PER_HOUR ≤ cleaned.length then
      ⟨false, "Too many registration attempts. Please try again later.", updateStore st ip cleaned⟩
    else
      ⟨true, "", updateStore st ip (cleaned ++ [now])⟩
  else if action = "login" then
    let cleaned := cleanOldEntries (st ip) now 60
    if MAX_LOGINS_PER_MINUTE ≤ cleaned.length then
      ⟨false, "Too many login attempts. Please try again in a minute.", updateStore st ip cleaned⟩
    else
      ⟨true, "", updateStore st ip (cleaned ++ [now])⟩
  else ⟨true, "", st⟩

/-- A sequence of `check_rate_limit` calls for one IP and one action,
returning the decision of each call in order. -/
def runChecks (st : RateStore) (ip : String) (action : String) : List Int → List Bool
  | [] => []
  | t :: ts =>
    let r := check_rate_limit st ip action t
    r.allowed :: runChecks r.store ip action ts

/-! Basic rate-limiter lemmas. -/

theorem cleanOld_of_all {l : List Int} {now window : Int}
    (h : ∀ x ∈ l, now - window < x) : cleanOldEntries l now window = l :=
  List.filter_eq_self.mpr (fun a ha => decide_eq_true (h a ha))

theorem updateStore_self (st : RateStore) (ip : String) (l : List Int) :
    updateStore st ip l ip = l := by
  simp [updateStore]

theorem check_register_eq (st : RateStore) (ip : String) (now : Int) (hip : ip ≠ "") :
    check_rate_limit st ip "register" now =
      (if MAX_REGISTRATIONS_PER_HOUR ≤ (cleanOldEntries (st ip) now 3600).length then
        ⟨false, "Too many registration attempts. Please try again later.",
          updateStore st ip (cleanOldEntries (st ip) now 3600)⟩
      else
        ⟨true, "", updateStore st ip (cleanOldEntries (st ip) now 3600 ++ [now])⟩) := by
  simp [check_rate_limit, hip]

theorem check_login_eq (st : RateStore) (ip : String) (now : Int) (hip : ip ≠ "") :
    check_rate_limit st ip "login" now =
      (if MAX_LOGINS_PER_MINUTE ≤ (cleanOldEntries (st ip) now 60).length then
        ⟨false, "Too many login attempts. Please try again in a minute.",
          updateStore st ip (cleanOldEntries (st ip) now 60)⟩
      else
        ⟨true, "", updateStore st ip (cleanOldEntries (st ip) now 60 ++ [now])⟩) := by
  simp [check_rate_limit, hip]

/-- The store resulting from a sequence of `check_rate_limit` calls. -/
def runStore (st : RateStore) (ip : String) (action : String) : List Int → RateStore
  | [] => st
  | t :: ts => runStore (check_rate_limit st ip action t).store ip action ts

/-- Expected decision pattern of a windowed counter that starts at count `c`
with cap `cap` and never prunes: allow while the count is below the cap. -/
def allowPattern (c cap : Nat) : Nat → List Bool
  | 0 => []
  | n + 1 =>
    if c < cap then true :: allowPattern (c + 1) cap n
    else false :: allowPattern c cap n

theorem runChecks_pattern (ip : String) (hip : ip ≠ "") (W : Int) (cap : Nat) (action : String)
    (hact : (action = "register" ∧ W = 3600 ∧ cap = MAX_REGISTRATIONS_PER_HOUR) ∨
            (action = "login" ∧ W = 60 ∧ cap = MAX_LOGINS_PER_MINUTE)) :
    ∀ (ts : List Int) (st : RateStore),
      (∀ t ∈ ts, ∀ x ∈ st ip ++ ts, t - W < x) →
      runChecks st ip action ts = allowPattern (st ip).length cap ts.length := by
  intro ts
  induction ts with
  | nil => intro st _; rcases hact with ⟨ha, _, _⟩ | ⟨ha, _, _⟩ <;> simp [runChecks, allowPattern]
  | cons t ts ih =>
    intro st h
    have hclean : cleanOldEntries (st ip) t W = st ip :=
      cleanOld_of_all (fun x hx => h t (by simp) x (by simp [hx]))
    have hstep : check_rate_limit st ip action t =
        (if cap ≤ (st ip).length then
          ⟨false,
            if action = "register" then "Too many registration attempts. Please try again later."
            else "Too many login attempts. Please try again in a minute.",
            updateStore st ip (st ip)⟩
        else ⟨true, "", updateStore st ip (st ip ++ [t])⟩) := by
      rcases hact with ⟨ha, hw, hc⟩ | ⟨ha, hw, hc⟩ <;> subst ha <;> subst hw <;> subst hc
      · rw [check_register_eq st ip t hip, hclean]; simp
      · rw [check_login_eq st ip t hip, hclean]; simp
    by_cases hcap : cap ≤ (st ip).length
    · rw [runChecks, hstep, if_pos hcap]
      have hrec := ih (updateStore st ip (st ip))
      rw [updateStore_self] at hrec
      rw [hrec]
      · have : ¬ (st ip).length < cap := by omega
        simp [allowPattern, this]
      · intro t' ht' x hx
        exact h t' (by simp [ht']) x (by
          rcases List.mem_append.mp hx with hx | hx
          · exact List.mem_append.mpr (Or.inl hx)
          · exact List.mem_append.mpr (Or.inr (by simp [hx])))
    · rw [runChecks, hstep, if_neg hcap]
      have hrec := ih (updateStore st ip (st ip ++ [t]))
      rw [updateStore_self] at hrec
      rw [hrec]
      · have hlen : (st ip ++ [t]).length = (st ip).length + 1 := by simp
        rw [hlen]
        have : (st ip).length < cap := by omega
        simp [allowPattern, this]
      · intro t' ht' x hx
        rcases List.mem_append.mp hx with hx | hx
        · rcases List.mem_append.mp hx with hx | hx
          · exact h t' (by simp [ht']) x (List.mem_append.mpr (Or.inl hx))
          · have : x = t := by simpa using hx
            exact h t' (by simp [ht']) x (by simp [this])
        · exact h t' (by simp [ht']) x (by simp [hx])

theorem runStore_all_allowed (ip : String) (hip : ip ≠ "") (W : Int) (cap : Nat) (action : String)
    (hact : (action = "register" ∧ W = 3600 ∧ cap = MAX_REGISTRATIONS_PER_HOUR) ∨
            (action = "login" ∧ W = 60 ∧ cap = MAX_LOGINS_PER_MINUTE)) :
    ∀ (ts : List Int) (st : RateStore),
      (∀ t ∈ ts, ∀ x ∈ st ip ++ ts, t - W < x) →
      (st ip).length + ts.length ≤ cap →
      runStore st ip action ts ip = st ip ++ ts := by
  intro ts
  induction ts with
  | nil => intro st _ _; simp [runStore]
  | cons t ts ih =>
    intro st h hlen
    have hclean : cleanOldEntries (st ip) t W = st ip :=
      cleanOld_of_all (fun x hx => h t (by simp) x (by simp [hx]))
    have hstep : check_rate_limit st ip action t = ⟨true, "", updateStore st ip (st ip ++ [t])⟩ := by
      rcases hact with ⟨ha, hw, hc⟩ | ⟨ha, hw, hc⟩ <;> subst ha <;> subst hw <;> subst hc
      · rw [check_register_eq st ip t hip, hclean, if_neg (by simp at hlen ⊢; omega)]
      · rw [check_login_eq st ip t hip, hclean, if_neg (by simp at hlen ⊢; omega)]
    rw [runStore, hstep]
    have hrec := ih (updateStore st ip (st ip ++ [t]))
    rw [updateStore_self] at hrec
    rw [hrec]
    · simp
    · intro t' ht' x hx
      rcases List.mem_append.mp hx with hx | hx
      · rcases List.mem_append.mp hx with hx | hx
        · exact h t' (by simp [ht']) x (List.mem_append.mpr (Or.inl hx))
        · have : x = t := by simpa using hx
          exact h t' (by simp [ht']) x (by simp [this])
      · exact h t' (by simp [ht']) x (by simp [hx])
    · simp at hlen ⊢
      omega

/-- C8: for a fixed IP address and a fixed action the rate limiter allows up
to the cap and throttles beyond it: the 6th `register` check within a rolling
hour is refused, the 11th `login` check within a rolling minute is refused,
and once every recorded timestamp for that IP falls outside the action's
window the next check is allowed again. -/
theorem rate_limit_caps_and_reset (ip : String) (hip : ip ≠ "") :
    (∀ t1 t2 t3 t4 t5 t6 : Int,
      t1 ≤ t2 → t2 ≤ t3 → t3 ≤ t4 → t4 ≤ t5 → t5 ≤ t6 → t6 - t1 < 3600 →
      runChecks emptyStore ip "register" [t1, t2, t3, t4, t5, t6] =
        [true, true, true, true, true, false]) ∧
    (∀ u1 u2 u3 u4 u5 u6 u7 u8 u9 u10 u11 : Int,
      u1 ≤ u2 → u2 ≤ u3 → u3 ≤ u4 → u4 ≤ u5 → u5 ≤ u6 → u6 ≤ u7 → u7 ≤ u8 →
      u8 ≤ u9 → u9 ≤ u10 → u10 ≤ u11 → u11 - u1 < 60 →
      runChecks emptyStore ip "login" [u1, u2, u3, u4, u5, u6, u7, u8, u9, u10, u11] =
        [true, true, true, true, true, true, true, true, true, true, false]) ∧
    (∀ (st : RateStore) (now : Int), (∀ x ∈ st ip, x ≤ now - 3600) →
      (check_rate_limit st ip "register" now).allowed = true) ∧
    (∀ (st : RateStore) (now : Int), (∀ x ∈ st ip, x ≤ now - 60) →
      (check_rate_limit st ip "login" now).allowed = true) := by
  refine ⟨?_, ?_, ?_, ?_⟩
  · intro t1 t2 t3 t4 t5 t6 h12 h23 h34 h45 h56 hspan
    have hp := runChecks_pattern ip hip 3600 MAX_REGISTRATIONS_PER_HOUR "register"
      (Or.inl ⟨rfl, rfl, rfl⟩) [t1, t2, t3, t4, t5, t6] emptyStore ?_
    · rw [hp]; show allowPattern 0 MAX_REGISTRATIONS_PER_HOUR 6 = _; decide
    · intro t ht x hx
      simp [emptyStore] at ht hx
      rcases ht with h | h | h | h | h | h <;> rcases hx with g | g | g | g | g | g <;> omega
  · intro u1 u2 u3 u4 u5 u6 u7 u8 u9 u10 u11 h1 h2 h3 h4 h5 h6 h7 h8 h9 h10 hspan
    have hp := runChecks_pattern ip hip 60 MAX_LOGINS_PER_MINUTE "login"
      (Or.inr ⟨rfl, rfl, rfl⟩) [u1, u2, u3, u4, u5, u6, u7, u8, u9, u10, u11] emptyStore ?_
    · rw [hp]; show allowPattern 0 MAX_LOGINS_PER_MINUTE 11 = _; decide
    · intro t ht x hx
      simp [emptyStore] at ht hx
      rcases ht with h | h | h | h | h | h | h | h | h | h | h <;>
        rcases hx with g | g | g | g | g | g | g | g | g | g | g <;> omega
  · intro st now h
    rw [check_register_eq st ip now hip]
    have hnil : cleanOldEntries (st ip) now 3600 = [] := by
      simp only [cleanOldEntries, List.filter_eq_nil_iff]
      intro a ha
      have := h a ha
      simp
      omega
    rw [hnil]
    simp [MAX_REGISTRATIONS_PER_HOUR]
  · intro st now h
    rw [check_login_eq st ip now hip]
    have hnil : cleanOldEntries (st ip) now 60 = [] := by
      simp only [cleanOldEntries, List.filter_eq_nil_iff]
      intro a ha
      have := h a ha
      simp
      omega
    rw [hnil]
    simp [MAX_LOGINS_PER_MINUTE]

theorem rate_limit_caps_and_reset_witness :
    runChecks emptyStore "10.0.0.1" "register" [0, 1, 2, 3, 4, 5] =
      [true, true, true, true, true, false] ∧
    (check_rate_limit (fun _ => [-4000]) "10.0.0.1" "register" 0).allowed = true :=
  ⟨(rate_limit_caps_and_reset "10.0.0.1" (by decide)).1 0 1 2 3 4 5
      (by decide) (by decide) (by decide) (by decide) (by decide) (by decide),
   (rate_limit_caps_and_reset "10.0.0.1" (by decide)).2.2.1 (fun _ => [-4000]) 0
      (by intro x hx; simp at hx; omega)⟩

/-- C10: the rate limiter keeps a single per-IP timestamp list shared between
the `register` and `login` actions: timestamps recorded by register checks
count toward the login cap of 10 within the following minute, timestamps
recorded by login checks count toward the register cap of 5 within the
following hour, and each check prunes the shared list using its own action's
window. -/
theorem rate_limit_shared_store (ip : String) (hip : ip ≠ "") (t : Int) :
    (runChecks emptyStore ip "register" (List.replicate 5 t) = List.replicate 5 true ∧
     runChecks (runStore emptyStore ip "register" (List.replicate 5 t)) ip "login"
        (List.replicate 6 t) = [true, true, true, true, true, false]) ∧
    (runChecks emptyStore ip "login" (List.replicate 5 t) = List.replicate 5 true ∧
     (check_rate_limit (runStore emptyStore ip "login" (List.replicate 5 t)) ip
        "register" t).allowed = false) ∧
    (∀ (st : RateStore) (now : Int), ∀ x ∈ (check_rate_limit st ip "register" now).store ip,
        now - 3600 < x) ∧
    (∀ (st : RateStore) (now : Int), ∀ x ∈ (check_rate_limit st ip "login" now).store ip,
        now - 60 < x) := by
  have hmem5 : ∀ x ∈ (emptyStore ip : List Int) ++ List.replicate 5 t, x = t := by
    intro x hx
    rcases List.mem_append.mp hx with hx | hx
    · simp [emptyStore] at hx
    · exact List.eq_of_mem_replicate hx
  have hstR : runStore emptyStore ip "register" (List.replicate 5 t) ip =
      emptyStore ip ++ List.replicate 5 t := by
    apply runStore_all_allowed ip hip 3600 MAX_REGISTRATIONS_PER_HOUR "register"
      (Or.inl ⟨rfl, rfl, rfl⟩)
    · intro t' ht' x hx
      have := hmem5 x hx
      have := List.eq_of_mem_replicate ht'
      omega
    · simp [emptyStore, MAX_REGISTRATIONS_PER_HOUR]
  have hstL : runStore emptyStore ip "login" (List.replicate 5 t) ip =
      emptyStore ip ++ List.replicate 5 t := by
    apply runStore_all_allowed ip hip 60 MAX_LOGINS_PER_MINUTE "login"
      (Or.inr ⟨rfl, rfl, rfl⟩)
    · intro t' ht' x hx
      have := hmem5 x hx
      have := List.eq_of_mem_replicate ht'
      omega
    · simp [emptyStore, MAX_LOGINS_PER_MINUTE]
  refine ⟨⟨?_, ?_⟩, ⟨?_, ?_⟩, ?_, ?_⟩
  · have hp := runChecks_pattern ip hip 3600 MAX_REGISTRATIONS_PER_HOUR "register"
      (Or.inl ⟨rfl, rfl, rfl⟩) (List.replicate 5 t) emptyStore ?_
    · rw [hp]; show allowPattern 0 MAX_REGISTRATIONS_PER_HOUR 5 = _; decide
    · intro t' ht' x hx
      have := hmem5 x hx
      have := List.eq_of_mem_replicate ht'
      omega
  · have hp := runChecks_pattern ip hip 60 MAX_LOGINS_PER_MINUTE "login"
      (Or.inr ⟨rfl, rfl, rfl⟩) (List.replicate 6 t)
      (runStore emptyStore ip "register" (List.replicate 5 t)) ?_
    · rw [hp, hstR]; show allowPattern 5 MAX_LOGINS_PER_MINUTE 6 = _; decide
    · intro t' ht' x hx
      have ht'' := List.eq_of_mem_replicate ht'
      rcases List.mem_append.mp hx with hx | hx
      · rw [hstR] at hx
        have := hmem5 x (by simpa using hx)
        omega
      · have := List.eq_of_mem_replicate hx
        omega
  · have hp := runChecks_pattern ip hip 60 MAX_LOGINS_PER_MINUTE "login"
      (Or.inr ⟨rfl, rfl, rfl⟩) (List.replicate 5 t) emptyStore ?_
    · rw [hp]; show allowPattern 0 MAX_LOGINS_PER_MINUTE 5 = _; decide
    · intro t' ht' x hx
      have := hmem5 x hx
      have := List.eq_of_mem_replicate ht'
      omega
  · rw [check_register_eq _ ip t hip]
    have hclean : cleanOldEntries (runStore emptyStore ip "login" (List.replicate 5 t) ip) t 3600 =
        runStore emptyStore ip "login" (List.replicate 5 t) ip := by
      apply cleanOld_of_all
      intro x hx
      rw [hstL] at hx
      have := hmem5 x (by simpa using hx)
      omega
    rw [hclean, if_pos (by rw [hstL]; simp [emptyStore, MAX_REGISTRATIONS_PER_HOUR])]
  · intro st now x hx
    rw [check_register_eq st ip now hip] at hx
    by_cases hc : MAX_REGISTRATIONS_PER_HOUR ≤ (cleanOldEntries (st ip) now 3600).length
    · rw [if_pos hc] at hx
      simp only [updateStore_self, cleanOldEntries, List.mem_filter] at hx
      exact of_decide_eq_true hx.2
    · rw [if_neg hc] at hx
      simp only [updateStore_self] at hx
      rcases List.mem_append.mp hx with hx | hx
      · simp only [cleanOldEntries, List.mem_filter] at hx
        exact of_decide_eq_true hx.2
      · have : x = now := by simpa using hx
        omega
  · intro st now x hx
    rw [check_login_eq st ip now hip] at hx
    by_cases hc : MAX_LOGINS_PER_MINUTE ≤ (cleanOldEntries (st ip) now 60).length
    · rw [if_pos hc] at hx
      simp only [updateStore_self, cleanOldEntries, List.mem_filter] at hx
      exact of_decide_eq_true hx.2
    · rw [if_neg hc] at hx
      simp only [updateStore_self] at hx
      rcases List.mem_append.mp hx with hx | hx
      · simp only [cleanOldEntries, List.mem_filter] at hx
        exact of_decide_eq_true hx.2
      · have : x = now := by simpa using hx
        omega

theorem rate_limit_shared_store_witness :
    runChecks (runStore emptyStore "10.9.9.9" "register" (List.replicate 5 0)) "10.9.9.9" "login"
      (List.replicate 6 0) = [true, true, true, true, true, false] :=
  (rate_limit_shared_store "10.9.9.9" (by decide) 0).1.2

/-! ### 2FA / OTP engine (`src/services/twofa.py`)

The service keeps all 2FA state inside the user's
`notification_preferences` JSON column.  The fields that
`TwoFactorAuthService` reads and writes are modelled as a record; absent
keys are `none` (`otp_attempts` defaults to `0`, matching
`prefs.get('otp_attempts', 0)`).  The `email_*` boolean keys of the same
JSON column are carried along for the notification dispatcher. -/

structure Prefs where
  two_factor_enabled : Bool := false
  otp_hash : Option String := none
  otp_salt : Option String := none
  otp_expiry : Option Int := none
  otp_attempts : Nat := 0
  backup_codes : List String := []
  email_transactions : Option Bool := none
  email_bills : Option Bool := none
  email_security : Option Bool := none
deriving DecidableEq, Repr

def OTP_VALIDITY_MINUTES : Int := 10

def MAX_FAILED_ATTEMPTS : Nat := 3

/-- `hash_otp(otp, salt) = sha256((otp + salt).encode()).hexdigest()`,
modelled symbolically: the hex digest is replaced by an injective tag of
the hash input, the standard symbolic idealization of a collision-free
hash. -/
def hash_otp (otp salt : String) : String :=
  "sha256:" ++ otp ++ "|" ++ salt

/-- `verify_otp_hash`: recompute and compare (`hmac.compare_digest` is
equality on equal-typed strings). -/
def verify_otp_hash (otp stored_hash salt : String) : Bool :=
  hash_otp otp salt == stored_hash

/-- `send_otp_email` restricted to its database effect: store the salted
hash of the freshly generated code, the salt `f"{user_id}_{int(time.time())}"`,
an expiry 10 minutes ahead, and a reset attempt counter.  The generated
code and the current time are explicit parameters; the email dispatch is
modelled separately by `notify_user`. -/
def send_otp_email (prefs : Prefs) (user_id : String) (otp : String) (now : Int) : Prefs :=
  { prefs with
    otp_hash := some (hash_otp otp (user_id ++ "_" ++ toString now)),
    otp_salt := some (user_id ++ "_" ++ toString now),
    otp_expiry := some (now + OTP_VALIDITY_MINUTES * 60),
    otp_attempts := 0 }

/-- Outcome of `verify_otp`: the returned success flag and message, the
user's preference blob after the call (the database state), and whether the
stored hash was compared against the submitted code
(`verify_otp_hash` reached). -/
structure OtpResult where
  success : Bool
  message : String
  prefs : Prefs
  comparedHash : Bool
deriving DecidableEq, Repr

/-- `TwoFactorAuthService.verify_otp(user_id, otp)` with the current time
explicit.  Checks run in source order: 2FA enabled, presence of an active
challenge (`if not otp_hash or not otp_salt or not otp_expiry`), expiry,
attempt limit, and only then the hash comparison.  A mismatch increments
the attempt counter; a match clears the challenge and resets the counter. -/
def verify_otp (prefs : Prefs) (now : Int) (otp : String) : OtpResult :=
  if prefs.two_factor_enabled = false then
    ⟨false, "2FA not enabled", prefs, false⟩
  else if truthyStr prefs.otp_hash = false ∨ truthyStr prefs.otp_salt = false ∨
      prefs.otp_expiry = none then
    ⟨false, "No active verification code", prefs, false⟩
  else if prefs.otp_expiry.getD 0 < now then
    ⟨false, "Verification code has expired", prefs, false⟩
  else if MAX_FAILED_ATTEMPTS ≤ prefs.otp_attempts then
    ⟨false, "Too many failed attempts", prefs, false⟩
  else if verify_otp_hash otp (prefs.otp_hash.getD "") (prefs.otp_salt.getD "") = false then
    ⟨false,
      "Invalid code. " ++ toString (MAX_FAILED_ATTEMPTS - (prefs.otp_attempts + 1)) ++
        " attempts remaining",
      { prefs with otp_attempts := prefs.otp_attempts + 1 }, true⟩
  else
    ⟨true, "Verification successful",
      { prefs with otp_hash := none, otp_salt := none, otp_expiry := none,
                   otp_attempts := 0 }, true⟩

/-- Outcome of `verify_backup_code`. -/
structure BackupResult where
  success : Bool
  message : String
  prefs : Prefs
deriving DecidableEq, Repr

/-- `TwoFactorAuthService.verify_backup_code(user_id, backup_code)`:
requires 2FA on and a nonempty stored code list, hashes the candidate with
the user-id salt, and on a match removes the first occurrence of that hash
(`list.remove`) from the stored list. -/
def verify_backup_code (prefs : Prefs) (user_id : String) (backup_code : String) : BackupResult :=
  if prefs.two_factor_enabled = false then
    ⟨false, "2FA not enabled", prefs⟩
  else if prefs.backup_codes = [] then
    ⟨false, "No backup codes available", prefs⟩
  else
    let code_hash := hash_otp backup_code user_id
    if code_hash ∉ prefs.backup_codes then
      ⟨false, "Invalid backup code", prefs⟩
    else
      ⟨true, "Backup code accepted",
        { prefs with backup_codes := prefs.backup_codes.erase code_hash }⟩

theorem hash_otp_ne_empty (otp salt : String) : hash_otp otp salt ≠ "" := by
  intro h
  have hlen : (hash_otp otp salt).length = ("" : String).length := congrArg String.length h
  simp [hash_otp, String.length_append] at hlen
  exact absurd hlen.1.1.1 (by decide)

theorem otp_salt_ne_empty (a b : String) : a ++ "_" ++ b ≠ "" := by
  intro h
  have hlen : (a ++ "_" ++ b).length = ("" : String).length := congrArg String.length h
  simp [String.length_append] at hlen
  exact absurd hlen.1.2 (by decide)

/-- C3: for a user with 2FA enabled and an active unexpired OTP challenge
with fewer than 3 failed attempts, verification with the correct code
succeeds exactly once: it clears the stored hash, salt and expiry, resets
the attempt counter to 0, and a second `verify_otp` call with the same code
then returns the no-active-challenge failure. -/
theorem verify_otp_succeeds_once (prefs : Prefs) (now now2 : Int) (code saltv : String) (e : Int)
    (hen : prefs.two_factor_enabled = true)
    (hsalt : prefs.otp_salt = some saltv) (hsne : saltv ≠ "")
    (hhash : prefs.otp_hash = some (hash_otp code saltv))
    (hexp : prefs.otp_expiry = some e) (hunexp : ¬ e < now)
    (hatt : prefs.otp_attempts < MAX_FAILED_ATTEMPTS) :
    (verify_otp prefs now code).success = true ∧
    (verify_otp prefs now code).prefs.otp_hash = none ∧
    (verify_otp prefs now code).prefs.otp_salt = none ∧
    (verify_otp prefs now code).prefs.otp_expiry = none ∧
    (verify_otp prefs now code).prefs.otp_attempts = 0 ∧
    verify_otp (verify_otp prefs now code).prefs now2 code =
      ⟨false, "No active verification code", (verify_otp prefs now code).prefs, false⟩ := by
  have hattn : ¬ MAX_FAILED_ATTEMPTS ≤ prefs.otp_attempts := by omega
  have h1 : verify_otp prefs now code =
      ⟨true, "Verification successful",
        { prefs with otp_hash := none, otp_salt := none, otp_expiry := none,
                     otp_attempts := 0 }, true⟩ := by
    rw [verify_otp, hhash, hsalt, hexp, if_neg (by simp [hen]),
      if_neg (by simp [truthyStr, hsne, hash_otp_ne_empty code saltv]),
      if_neg (by simpa using hunexp), if_neg hattn,
      if_neg (by simp [verify_otp_hash])]
  rw [h1]
  refine ⟨rfl, rfl, rfl, rfl, rfl, ?_⟩
  rw [verify_otp, if_neg (by simp [hen]), if_pos (by simp [truthyStr])]

theorem verify_otp_succeeds_once_witness :
    (verify_otp
        { two_factor_enabled := true, otp_salt := some "u1_100",
          otp_hash := some (hash_otp "123456" "u1_100"), otp_expiry := some 700,
          otp_attempts := 0 } 650 "123456").success = true :=
  (verify_otp_succeeds_once
      { two_factor_enabled := true, otp_salt := some "u1_100",
        otp_hash := some (hash_otp "123456" "u1_100"), otp_expiry := some 700,
        otp_attempts := 0 } 650 0 "123456" "u1_100" 700
      rfl rfl (by decide) rfl rfl (by decide) (by decide)).1

/-- C4: `verify_otp` evaluates expiry and the attempt limit before any hash
comparison.  A challenge issued by `send_otp_email` more than 10 minutes ago
is rejected as expired for every submitted code (the correct one included),
and a challenge whose attempt counter has reached 3 is rejected as
too-many-attempts for every submitted code; in both cases the stored
preference blob is returned unchanged (the attempt counter in particular)
and the stored hash is never compared (`comparedHash = false`). -/
theorem verify_otp_expiry_attempts_before_hash (prefs0 : Prefs) (user_id otp0 : String) (t0 : Int)
    (hen : prefs0.two_factor_enabled = true) :
    (∀ (now : Int) (otp : String), t0 + OTP_VALIDITY_MINUTES * 60 < now →
      verify_otp (send_otp_email prefs0 user_id otp0 t0) now otp =
        ⟨false, "Verification code has expired", send_otp_email prefs0 user_id otp0 t0, false⟩) ∧
    (∀ (prefs : Prefs) (now : Int) (otp h s : String) (e : Int),
      prefs.two_factor_enabled = true → prefs.otp_hash = some h → h ≠ "" →
      prefs.otp_salt = some s → s ≠ "" → prefs.otp_expiry = some e → ¬ e < now →
      MAX_FAILED_ATTEMPTS ≤ prefs.otp_attempts →
      verify_otp prefs now otp = ⟨false, "Too many failed attempts", prefs, false⟩) := by
  constructor
  · intro now otp hlate
    have hlate' : t0 + 600 < now := by
      have : OTP_VALIDITY_MINUTES * 60 = 600 := by decide
      omega
    rw [verify_otp, if_neg (by simp [send_otp_email, hen]),
      if_neg (by
        simp [send_otp_email, truthyStr, hash_otp_ne_empty, otp_salt_ne_empty]),
      if_pos (by simp [send_otp_email, OTP_VALIDITY_MINUTES]; omega)]
  · intro prefs now otp h s e hen2 hh hhne hs hsne he hne hatt
    rw [verify_otp, hh, hs, he, if_neg (by simp [hen2]),
      if_neg (by simp [truthyStr, hhne, hsne]),
      if_neg (by simpa using hne), if_pos hatt]

theorem verify_otp_expiry_attempts_before_hash_witness :
    verify_otp (send_otp_email { two_factor_enabled := true } "u1" "123456" 0) 601 "123456" =
      ⟨false, "Verification code has expired",
        send_otp_email { two_factor_enabled := true } "u1" "123456" 0, false⟩ :=
  (verify_otp_expiry_attempts_before_hash { two_factor_enabled := true } "u1" "123456" 0 rfl).1
    601 "123456" (by decide)

/-- C7 counterexample: a user with 2FA enabled and the non-empty backup-code
set consisting of exactly one code.  The first `verify_backup_code` call with
that code succeeds and removes the hash, but the second call with the same
plaintext code returns the no-codes-available failure, not the claimed
`Invalid backup code`. -/
theorem verify_backup_code_last_code_cex :
    (verify_backup_code
        { two_factor_enabled := true, backup_codes := [hash_otp "ABCDE12345" "u1"] }
        "u1" "ABCDE12345").success = true ∧
    (verify_backup_code
        (verify_backup_code
          { two_factor_enabled := true, backup_codes := [hash_otp "ABCDE12345" "u1"] }
          "u1" "ABCDE12345").prefs
        "u1" "ABCDE12345").message = "No backup codes available" ∧
    (verify_backup_code
        (verify_backup_code
          { two_factor_enabled := true, backup_codes := [hash_otp "ABCDE12345" "u1"] }
          "u1" "ABCDE12345").prefs
        "u1" "ABCDE12345").message ≠ "Invalid backup code" := by
  refine ⟨by decide, by decide, by decide⟩

/-- C7 (amended): for a user with 2FA enabled whose backup-code set contains
the salted hash of the submitted code exactly once, `verify_backup_code`
succeeds, removes exactly that one hash (the length drops by one and the
multiplicity of every other hash is unchanged), and a second invocation with
the same plaintext code returns `Invalid backup code` provided at least one
other hash remains (when the consumed code was the last one, the second call
instead returns the no-codes-available failure, as the counterexample
records). -/
theorem verify_backup_code_one_time (prefs : Prefs) (user_id code : String)
    (hen : prefs.two_factor_enabled = true)
    (hmem : hash_otp code user_id ∈ prefs.backup_codes)
    (hcount : prefs.backup_codes.count (hash_otp code user_id) = 1) :
    (verify_backup_code prefs user_id code).success = true ∧
    (verify_backup_code prefs user_id code).prefs.backup_codes =
      prefs.backup_codes.erase (hash_otp code user_id) ∧
    (verify_backup_code prefs user_id code).prefs.backup_codes.length =
      prefs.backup_codes.length - 1 ∧
    (∀ x, x ≠ hash_otp code user_id →
      (verify_backup_code prefs user_id code).prefs.backup_codes.count x =
        prefs.backup_codes.count x) ∧
    hash_otp code user_id ∉ (verify_backup_code prefs user_id code).prefs.backup_codes ∧
    ((verify_backup_code prefs user_id code).prefs.backup_codes ≠ [] →
      verify_backup_code (verify_backup_code prefs user_id code).prefs user_id code =
        ⟨false, "Invalid backup code", (verify_backup_code prefs user_id code).prefs⟩) := by
  have hnn : prefs.backup_codes ≠ [] := List.ne_nil_of_mem hmem
  have h1 : verify_backup_code prefs user_id code =
      ⟨true, "Backup code accepted",
        { prefs with backup_codes := prefs.backup_codes.erase (hash_otp code user_id) }⟩ := by
    rw [verify_backup_code, if_neg (by simp [hen]), if_neg hnn, if_neg (by simp [hmem])]
  have hnotmem : hash_otp code user_id ∉ prefs.backup_codes.erase (hash_otp code user_id) := by
    rw [← List.count_eq_zero, List.count_erase_self, hcount]
  rw [h1]
  refine ⟨rfl, rfl, List.length_erase_of_mem hmem, ?_, hnotmem, ?_⟩
  · intro x hx
    exact List.count_erase_of_ne hx _
  · intro hrest
    rw [verify_backup_code, if_neg (by simp [hen]), if_neg hrest, if_pos (by simp [hnotmem])]

theorem verify_backup_code_one_time_witness :
    (verify_backup_code
        { two_factor_enabled := true,
          backup_codes := [hash_otp "AAAAAAAAAA" "u1", hash_otp "BBBBBBBBBB" "u1"] }
        "u1" "AAAAAAAAAA").success = true ∧
    verify_backup_code
        (verify_backup_code
          { two_factor_enabled := true,
            backup_codes := [hash_otp "AAAAAAAAAA" "u1", hash_otp "BBBBBBBBBB" "u1"] }
          "u1" "AAAAAAAAAA").prefs
        "u1" "AAAAAAAAAA" =
      ⟨false, "Invalid backup code",
        (verify_backup_code
          { two_factor_enabled := true,
            backup_codes := [hash_otp "AAAAAAAAAA" "u1", hash_otp "BBBBBBBBBB" "u1"] }
          "u1" "AAAAAAAAAA").prefs⟩ :=
  ⟨(verify_backup_code_one_time
      { two_factor_enabled := true,
        backup_codes := [hash_otp "AAAAAAAAAA" "u1", hash_otp "BBBBBBBBBB" "u1"] }
      "u1" "AAAAAAAAAA" rfl (by decide) (by decide)).1,
   (verify_backup_code_one_time
      { two_factor_enabled := true,
        backup_codes := [hash_otp "AAAAAAAAAA" "u1", hash_otp "BBBBBBBBBB" "u1"] }
      "u1" "AAAAAAAAAA" rfl (by decide) (by decide)).2.2.2.2.2 (by decide)⟩

/-! ### Bank state and notification dispatcher
(`src/services/notification_helper.py`, `notification_service.py`,
`user_service.py`, `src/utils/db_helpers.py`)

Database rows are modelled as records; the tables live in a `BankState`.
Every read or write issued against the store is logged in `BankState.trace`
so that ordering properties are statable.  Error messages raised by the
supabase client itself (`single()` with no row) are collapsed to the
handler's own not-found message since no claim depends on their text. -/

structure UserRec where
  id : String
  email : Option String := none
  transaction_pin_hash : Option String := none
  notification_preferences : Option Prefs := none
deriving DecidableEq, Repr

structure Account where
  id : String
  user_id : String
  account_type : String
  account_number : String
  balance : Rat
deriving DecidableEq, Repr

structure TransactionRec where
  account_id : String
  ty : String
  amount : Rat
  description : String
  category : String
  merchant : Option String := none
deriving DecidableEq, Repr

/-- The `to_external` JSON object of a transfer request; `data.get(key, '')`
defaults are the empty string, `get('name', ...)` distinguishes absence. -/
structure ExternalInfo where
  account_number : String := ""
  routing_number : String := ""
  email : String := ""
  phone : String := ""
  name : Option String := none
deriving DecidableEq, Repr

structure TransferRec where
  user_id : String
  from_account_id : String
  to_account_id : Option String
  to_external : ExternalInfo
  amount : Rat
  transfer_type : String
  status : String
deriving DecidableEq, Repr

structure NotificationRec where
  user_id : String
  ty : String
  message : String
  delivery_method : String
deriving DecidableEq, Repr

/-- One database access issued by a handler, in issue order. -/
inductive DbEvent
  | usersRead (user_id : String)
  | accountLookup (account_id user_id : String)
  | transferInsert (t : TransferRec)
  | balanceWrite (account_id : String) (newBalance : Rat)
  | txInsert (account_id ty : String) (amount : Rat)
  | notifInsert (user_id ty message : String)
  | emailSend (recipient subject : String)
deriving DecidableEq, Repr

/-- An event that mutates persistent state or leaves the system (everything
except a read). -/
def DbEvent.isWrite : DbEvent → Bool
  | .usersRead _ => false
  | .accountLookup _ _ => false
  | _ => true

structure BankState where
  users : List UserRec
  accounts : List Account
  transfers : List TransferRec
  transactions : List TransactionRec
  notifications : List NotificationRec
  trace : List DbEvent
deriving DecidableEq, Repr

def findUser (st : BankState) (user_id : String) : Option UserRec :=
  st.users.find? (fun u => u.id == user_id)

def findAccount (st : BankState) (account_id user_id : String) : Option Account :=
  st.accounts.find? (fun a => a.id == account_id && a.user_id == user_id)

/-- First stored balance under an account id (the value a
`select('balance')`-style read would return). -/
def accountBalance (st : BankState) (account_id : String) : Option Rat :=
  (st.accounts.find? (fun a => a.id == account_id)).map (fun a => a.balance)

/-- `verify_account_ownership`: one filtered lookup
(`eq('id', account_id).eq('user_id', user_id).single()`). -/
def verify_account_ownership (st : BankState) (account_id user_id : String) :
    Option Account × BankState :=
  (findAccount st account_id user_id,
   { st with trace := st.trace ++ [.accountLookup account_id user_id] })

/-- `check_sufficient_balance`. -/
def check_sufficient_balance (account : Account) (amount : Rat) : Bool × Option String :=
  if account.balance < amount then (false, some "Insufficient funds") else (true, none)

/-- `update_account_balance`: unconditional write of the new balance under
the account id. -/
def update_account_balance (st : BankState) (account_id : String) (new_balance : Rat) :
    BankState :=
  { st with
    accounts := st.accounts.map
      (fun a => if a.id == account_id then { a with balance := new_balance } else a),
    trace := st.trace ++ [.balanceWrite account_id new_balance] }

/-- `create_transaction_record` (the `merchant` argument is never supplied by
the transfer route). -/
def create_transaction_record (st : BankState) (account_id ty : String) (amount : Rat)
    (description category : String) : BankState :=
  { st with
    transactions := st.transactions ++
      [{ account_id := account_id, ty := ty, amount := amount,
         description := description, category := category }],
    trace := st.trace ++ [.txInsert account_id ty amount] }

/-- `log_notification` (delivery_method defaults to `'email'`; an insert
failure is swallowed, and the store itself is modelled as reliable). -/
def log_notification (st : BankState) (user_id ty message : String) : BankState :=
  { st with
    notifications := st.notifications ++
      [{ user_id := user_id, ty := ty, message := message, delivery_method := "email" }],
    trace := st.trace ++ [.notifInsert user_id ty message] }

/-- `get_user_email`: lookup failure or a missing column both yield `None`. -/
def get_user_email (st : BankState) (user_id : String) : Option String × BankState :=
  ((findUser st user_id).bind (fun u => u.email),
   { st with trace := st.trace ++ [.usersRead user_id] })

/-- Preference map of a user as the dispatcher reads it: a missing row or a
null column is the empty blob. -/
def userPrefs (st : BankState) (user_id : String) : Prefs :=
  ((findUser st user_id).bind (fun u => u.notification_preferences)).getD {}

/-- Resolution of the email preference from the notification type
(`notify_user`, lines 52-62): transaction-like types follow
`email_transactions`, bill types `email_bills`, security types
`email_security`, anything else defaults to sending.  The defaults of the
merged map are all `True` for these three keys. -/
def resolveEmailPref (prefs : Prefs) (ty : String) : Bool :=
  if ty = "transaction" ∨ ty = "transfer" ∨ ty = "account_created" then
    prefs.email_transactions.getD true
  else if ty = "bill_payment" ∨ ty = "bill_due" then
    prefs.email_bills.getD true
  else if ty = "security" ∨ ty = "login_alert" ∨ ty = "card_issue_reported" ∨
      ty = "password_changed" then
    prefs.email_security.getD true
  else true

/-- Whether `notify_user` can resolve a truthy email address for the user. -/
def emailResolvable (st : BankState) (user_id : String) : Bool :=
  truthyStr ((findUser st user_id).bind (fun u => u.email))

/-- `notify_user(supabase, user_id, type, message, subject?, html?)`:
reads the preference blob, always logs the in-app notification, and sends
the email only when the resolved preference is true, both subject and html
are truthy, and a truthy email address can be resolved. -/
def notify_user (st : BankState) (user_id notification_type notification_message : String)
    (email_subject email_html : Option String) : BankState :=
  let st1 := { st with trace := st.trace ++ [.usersRead user_id] }
  let prefs := userPrefs st1 user_id
  let should_send_email := resolveEmailPref prefs notification_type
  let st2 := log_notification st1 user_id notification_type notification_message
  if should_send_email && truthyStr email_subject && truthyStr email_html then
    let r := get_user_email st2 user_id
    let st3 := r.2
    match r.1 with
    | some e =>
      if e != "" then
        { st3 with trace := st3.trace ++ [.emailSend e (email_subject.getD "")] }
      else st3
    | none => st3
  else st2

/-! ### Transfer creation (`src/routes/transfers.py`, `create_transfer`)

The parsed JSON body is modelled by `TransferReq`.  Fields keep just enough
of Python's dynamic typing to express the route's own tests: the `pin`
field records whether the supplied value was a string
(`isinstance(provided_pin, str)`), and the `amount` field records the
original value's truthiness together with the result of `float(...)` on it
(`none` meaning the conversion raises).  `none` for an optional field means
the key is absent from the request body. -/

inductive PinField
  | pstr (s : String)
  | pnonstr (truthy : Bool)
deriving DecidableEq, Repr

/-- Python truthiness of `data.get('pin')`. -/
def pinTruthy : Option PinField → Bool
  | none => false
  | some (.pstr s) => s != ""
  | some (.pnonstr t) => t

inductive AmountField
  | anum (q : Rat)
  | astr (s : String) (parsed : Option Rat)
deriving DecidableEq, Repr

/-- Python truthiness of `data.get('amount')` (a zero number and the empty
string are falsy). -/
def amountTruthy : Option AmountField → Bool
  | none => false
  | some (.anum q) => q != 0
  | some (.astr s _) => s != ""

/-- `float(data['amount'])`: `none` when the conversion raises. -/
def pyFloat : AmountField → Option Rat
  | .anum q => some q
  | .astr _ parsed => parsed

structure TransferReq where
  pin : Option PinField := none
  from_account_id : Option String := none
  amount : Option AmountField := none
  transfer_type : Option String := none
  description : Option String := none
  to_account_id : Option String := none
  to_external : Option ExternalInfo := none
deriving DecidableEq, Repr

inductive TResp
  | err (status : Nat) (message : String)
  | created (t : TransferRec)
deriving DecidableEq, Repr

/-- Stand-in for the f-string
`f'Transfer of $\x7bamount:,.2f\x7d to \x7brecipient\x7d \x7bstatus\x7d'`;
the decimal formatting itself is not modelled. -/
def transferMessage (amount : Rat) (recipient status : String) : String :=
  "Transfer of $" ++ toString amount ++ " to " ++ recipient ++ " " ++ status

/-- Stand-in for `templates.transfer_confirmation_email`: a nonempty HTML
body (only its truthiness matters to the dispatcher). -/
def transfer_confirmation_email (amount new_balance : Rat) (recipient ty status : String) :
    String :=
  "<html>" ++ toString amount ++ "|" ++ toString new_balance ++ "|" ++ recipient ++ "|" ++
    ty ++ "|" ++ status ++ "</html>"

/-- Lines 179-244 of `create_transfer`: every check has passed.  Insert the
transfer record, debit the source account, record the debit transaction,
for internal transfers credit the destination (with the balance read at
ownership-check time) and record the credit transaction, then notify. -/
def createTransferExec (st : BankState) (user_id : String) (data : TransferReq)
    (transfer_type description : String) (from_account : Account) (amount : Rat)
    (recipient_name status : String) (to_account : Option Account) : TResp × BankState :=
  let transfer_data : TransferRec :=
    { user_id := user_id
      from_account_id := data.from_account_id.getD ""
      to_account_id := data.to_account_id
      to_external := data.to_external.getD {}
      amount := amount
      transfer_type := transfer_type
      status := status }
  let st := { st with transfers := st.transfers ++ [transfer_data],
                      trace := st.trace ++ [.transferInsert transfer_data] }
  let new_from_balance := from_account.balance - amount
  let st := update_account_balance st (data.from_account_id.getD "") new_from_balance
  let tx_description := if description != "" then description
    else "Transfer to " ++ recipient_name
  let st := create_transaction_record st (data.from_account_id.getD "") "debit" amount
    tx_description "transfer"
  let st :=
    if transfer_type = "internal" ∧ truthyStr data.to_account_id = true then
      match to_account with
      | some to_acc =>
        let st := update_account_balance st (data.to_account_id.getD "")
          (to_acc.balance + amount)
        create_transaction_record st (data.to_account_id.getD "") "credit" amount
          ("Transfer from " ++ from_account.account_type ++ " account") "transfer"
      | none => st
    else st
  let html := transfer_confirmation_email amount new_from_balance recipient_name
    transfer_type status
  let st := notify_user st user_id "transfer"
    (transferMessage amount recipient_name status)
    (some "Transfer Confirmation") (some html)
  (.created transfer_data, st)

/-- Lines 135-177 of `create_transfer`: recipient resolution and
per-transfer-type validation, entered with `transfer_type` already known to
be one of `internal`, `external`, `p2p`. -/
def createTransferBranch (st : BankState) (user_id : String) (data : TransferReq)
    (transfer_type description : String) (from_account : Account) (amount : Rat) :
    TResp × BankState :=
  if transfer_type = "internal" then
    if truthyStr data.to_account_id = false then
      (.err 400 "Destination account required for internal transfer", st)
    else
      match verify_account_ownership st (data.to_account_id.getD "") user_id with
      | (none, st) => (.err 400 "Destination account not found or access denied", st)
      | (some to_account, st) =>
        let recipient_name := to_account.account_type ++ " account ••••" ++
          pyLast4 to_account.account_number
        createTransferExec st user_id data transfer_type description from_account amount
          recipient_name "completed" (some to_account)
  else if transfer_type = "external" then
    let external := data.to_external.getD {}
    if external.account_number = "" ∨ external.routing_number = "" then
      (.err 400 "Account and routing numbers required", st)
    else if external.routing_number.length ≠ 9 ∨ pyStrIsDigit external.routing_number = false then
      (.err 400 "Invalid routing number (must be 9 digits)", st)
    else if pyStrIsDigit external.account_number = false ∨ external.account_number.length < 4 then
      (.err 400 "Invalid account number", st)
    else
      let recipient_name := match external.name with
        | some n => n
        | none => "External account ••••" ++ pyLast4 external.account_number
      createTransferExec st user_id data transfer_type description from_account amount
        recipient_name "pending" none
  else
    let external := data.to_external.getD {}
    if external.email = "" ∧ external.phone = "" then
      (.err 400 "Email or phone required for P2P transfer", st)
    else
      let recipient_name := if external.email != "" then external.email else external.phone
      createTransferExec st user_id data transfer_type description from_account amount
        recipient_name "pending" none

/-- The `0.01` amount floor of the route, written as a reduced rational
literal (kernel-evaluable); `pyCent_eq` identifies it with `1 / 100`. -/
def pyCent : Rat := ⟨1, 100, by decide, by decide⟩

theorem pyCent_eq : pyCent = 1 / 100 := by
  have h1 : (1 / 100 : Rat).num = 1 := by norm_num
  have h2 : (1 / 100 : Rat).den = 100 := by norm_num
  exact Rat.ext (by rw [h1]; rfl) (by rw [h2]; rfl)

/-- Lines 100-133 of `create_transfer`: required fields, amount parsing and
range checks, transfer-type check, source-account ownership and balance. -/
def createTransferValidated (st : BankState) (user_id : String) (data : TransferReq) :
    TResp × BankState :=
  if truthyStr data.from_account_id = false then
    (.err 400 "Source account is required", st)
  else if amountTruthy data.amount = false then
    (.err 400 "Amount is required", st)
  else
    match (data.amount.getD (.anum 0)) |> pyFloat with
    | none => (.err 400 "Invalid amount format", st)
    | some amount =>
      if amount ≤ 0 then (.err 400 "Amount must be greater than 0", st)
      else if 1000000 < amount then
        (.err 400 "Transfer amount exceeds maximum limit of $1,000,000", st)
      else if amount < pyCent then (.err 400 "Amount must be at least $0.01", st)
      else
        let transfer_type := data.transfer_type.getD "internal"
        if ¬ (transfer_type = "internal" ∨ transfer_type = "external" ∨
            transfer_type = "p2p") then
          (.err 400 "Invalid transfer type. Must be internal, external, or p2p", st)
        else
          let description := pySlice200 (pyStrip (data.description.getD ""))
          match verify_account_ownership st (data.from_account_id.getD "") user_id with
          | (none, st) => (.err 400 "Account not found", st)
          | (some from_account, st) =>
            match check_sufficient_balance from_account amount with
            | (false, msg) => (.err 400 (msg.getD ""), st)
            | (true, _) =>
              createTransferBranch st user_id data transfer_type description from_account
                amount

/-- `create_transfer(user)` (POST handler body): the PIN gate of lines
77-98 followed by validation and execution.  A missing user row makes
`single()` raise, which the handler's `except` turns into a 500. -/
def create_transfer (st : BankState) (user_id : String) (data : TransferReq) :
    TResp × BankState :=
  if pinTruthy data.pin = false then
    (.err 400 "Transaction PIN is required", st)
  else
    match data.pin with
    | some (.pstr provided_pin) =>
      if ¬ (pyStrIsDigit provided_pin = true ∧ provided_pin.length = 6) then
        (.err 400 "Transaction PIN must be exactly 6 digits", st)
      else
        let st1 := { st with trace := st.trace ++ [.usersRead user_id] }
        match findUser st1 user_id with
        | none => (.err 500 "PIN verification failed. Please try again.", st1)
        | some u =>
          if truthyStr u.transaction_pin_hash = false then
            (.err 400 "Transaction PIN not set. Please contact support.", st1)
          else if provided_pin ≠ u.transaction_pin_hash.getD "" then
            (.err 403 "Invalid transaction PIN", st1)
          else createTransferValidated st1 user_id data
    | _ => (.err 400 "Transaction PIN must be exactly 6 digits", st)

/-! Frame lemmas: a trace extension changes no table, and `notify_user`
touches only the notifications table and the trace. -/

theorem findUser_trace (st : BankState) (tr : List DbEvent) (user_id : String) :
    findUser { st with trace := tr } user_id = findUser st user_id := rfl

theorem userPrefs_trace (st : BankState) (tr : List DbEvent) (user_id : String) :
    userPrefs { st with trace := tr } user_id = userPrefs st user_id := rfl

theorem notify_user_state (st : BankState) (user_id ty msg : String)
    (email_subject email_html : Option String) :
    (notify_user st user_id ty msg email_subject email_html).users = st.users ∧
    (notify_user st user_id ty msg email_subject email_html).accounts = st.accounts ∧
    (notify_user st user_id ty msg email_subject email_html).transactions = st.transactions ∧
    (notify_user st user_id ty msg email_subject email_html).transfers = st.transfers ∧
    ∃ Δ, (notify_user st user_id ty msg email_subject email_html).trace = st.trace ++ Δ := by
  unfold notify_user log_notification get_user_email
  dsimp only
  split
  · split
    · split
      · exact ⟨rfl, rfl, rfl, rfl, _, by simp; rfl⟩
      · exact ⟨rfl, rfl, rfl, rfl, _, by simp; rfl⟩
    · exact ⟨rfl, rfl, rfl, rfl, _, by simp; rfl⟩
  · exact ⟨rfl, rfl, rfl, rfl, _, by simp; rfl⟩

/-- C9: every call of the notification dispatcher appends exactly one
in-app notification row, and an email is dispatched precisely when the
preference resolved from the event type is true, both an email subject and
an html body were supplied (truthy), and a truthy email address can be
resolved for the user; in particular an unresolvable email address skips
the send without failing the call (the notification row is still written
and the function returns normally). -/
theorem notify_user_dispatch (st : BankState) (user_id ty msg : String)
    (email_subject email_html : Option String) :
    (notify_user st user_id ty msg email_subject email_html).notifications =
      st.notifications ++
        [{ user_id := user_id, ty := ty, message := msg, delivery_method := "email" }] ∧
    ∃ Δ, (notify_user st user_id ty msg email_subject email_html).trace = st.trace ++ Δ ∧
      ((∃ e s, DbEvent.emailSend e s ∈ Δ) ↔
        (resolveEmailPref (userPrefs st user_id) ty = true ∧
         truthyStr email_subject = true ∧ truthyStr email_html = true ∧
         emailResolvable st user_id = true)) := by
  unfold notify_user log_notification get_user_email
  dsimp only
  split
  · rename_i hcond
    rw [Bool.and_eq_true, Bool.and_eq_true] at hcond
    obtain ⟨⟨h1, h2⟩, h3⟩ := hcond
    split
    · rename_i e heq
      have hE : (findUser st user_id).bind (fun u => u.email) = some e := heq
      split
      · rename_i hne
        refine ⟨rfl, _, by simp; rfl, ?_⟩
        constructor
        · intro _
          refine ⟨h1, h2, h3, ?_⟩
          rw [emailResolvable, hE]
          simpa [truthyStr] using hne
        · intro _
          exact ⟨e, email_subject.getD "", by simp⟩
      · rename_i hne
        refine ⟨rfl, _, by simp; rfl, ?_⟩
        constructor
        · rintro ⟨a, b, hmem⟩
          simp at hmem
        · rintro ⟨_, _, _, h4⟩
          rw [emailResolvable, hE] at h4
          exact absurd h4 hne
    · rename_i heq
      have hE : (findUser st user_id).bind (fun u => u.email) = none := heq
      refine ⟨rfl, _, by simp; rfl, ?_⟩
      constructor
      · rintro ⟨a, b, hmem⟩
        simp at hmem
      · rintro ⟨_, _, _, h4⟩
        rw [emailResolvable, hE] at h4
        simp [truthyStr] at h4
  · rename_i hcond
    refine ⟨rfl, _, by simp; rfl, ?_⟩
    constructor
    · rintro ⟨a, b, hmem⟩
      simp at hmem
    · rintro ⟨h1, h2, h3, _⟩
      exact absurd (by rw [show resolveEmailPref (userPrefs { st with
        trace := st.trace ++ [DbEvent.usersRead user_id] } user_id) ty = true from h1, h2, h3]; rfl)
        hcond

/-! Concrete fixtures used by witnesses and counterexamples. -/

def exUser : UserRec :=
  { id := "u1", email := some "client@example.com", transaction_pin_hash := some "123456" }

def exAcct : Account :=
  { id := "a1", user_id := "u1", account_type := "Checking", account_number := "12345678",
    balance := 500 }

def exAcct2 : Account :=
  { id := "a2", user_id := "u1", account_type := "Savings", account_number := "87654321",
    balance := 10 }

def exState : BankState :=
  { users := [exUser], accounts := [exAcct, exAcct2], transfers := [], transactions := [],
    notifications := [], trace := [] }

/-- C6 counterexample: Python's `str.isdigit` accepts non-ASCII Unicode
digits, so the six-character superscript-digit PIN `"²²²²²²"` is not a
string of 6 ASCII digits yet passes the route's format gate; against the
stored PIN `"123456"` it is rejected 403 Forbidden (`Invalid transaction
PIN`), not with the 400 malformed-PIN error the claim requires. -/
theorem pin_gate_unicode_cex :
    ("²²²²²²".data.all Char.isDigit) = false ∧
    "²²²²²²".length = 6 ∧
    pyStrIsDigit "²²²²²²" = true ∧
    (create_transfer exState "u1"
        { pin := some (.pstr "²²²²²²"), from_account_id := some "a1",
          amount := some (.anum 100), transfer_type := some "internal",
          to_account_id := some "a2" }).1 = .err 403 "Invalid transaction PIN" ∧
    (create_transfer exState "u1"
        { pin := some (.pstr "²²²²²²"), from_account_id := some "a1",
          amount := some (.anum 100), transfer_type := some "internal",
          to_account_id := some "a2" }).1 ≠
      .err 400 "Transaction PIN must be exactly 6 digits" := by
  refine ⟨by decide, by decide, by decide, by decide, by decide⟩

/-- C6 (amended): the PIN gate of `create_transfer` runs to completion
before any side effect.  A missing or falsy PIN, a truthy non-string PIN,
and a string PIN failing the code's format check — 6 characters all digits
in the sense of Python's Unicode-aware `isdigit`, which is wider than ASCII
digits as the counterexample records — are rejected 400 as
required/malformed; a format-passing PIN differing from the stored value is
rejected 403 Forbidden; in every one of these rejection cases the state is
returned with no transfer insert, no balance write, no transaction record
and no notification (at most the users-table read for the stored PIN is
issued). -/
theorem pin_gate (st : BankState) (user_id : String) (data : TransferReq) :
    (pinTruthy data.pin = false →
      create_transfer st user_id data = (.err 400 "Transaction PIN is required", st)) ∧
    (∀ s, data.pin = some (.pstr s) → s ≠ "" →
      ¬ (pyStrIsDigit s = true ∧ s.length = 6) →
      create_transfer st user_id data =
        (.err 400 "Transaction PIN must be exactly 6 digits", st)) ∧
    (∀ b, data.pin = some (.pnonstr b) → b = true →
      create_transfer st user_id data =
        (.err 400 "Transaction PIN must be exactly 6 digits", st)) ∧
    (∀ s u, data.pin = some (.pstr s) → pyStrIsDigit s = true → s.length = 6 →
      findUser st user_id = some u → truthyStr u.transaction_pin_hash = true →
      s ≠ u.transaction_pin_hash.getD "" →
      create_transfer st user_id data =
        (.err 403 "Invalid transaction PIN",
         { st with trace := st.trace ++ [.usersRead user_id] })) := by
  refine ⟨?_, ?_, ?_, ?_⟩
  · intro h
    rw [create_transfer, if_pos h]
  · intro s hpin hs hbad
    rw [create_transfer, hpin]
    dsimp only
    rw [if_neg (by simp [pinTruthy, hs]), if_pos hbad]
  · intro b hpin hb
    subst hb
    rw [create_transfer, hpin, if_neg (by simp [pinTruthy])]
  · intro s u hpin hdig hlen hfind htr hne
    have hs : s ≠ "" := by
      intro h
      rw [h] at hlen
      exact absurd hlen (by decide)
    rw [create_transfer, hpin]
    dsimp only
    rw [if_neg (by simp [pinTruthy, hs]), if_neg (by simp [hdig, hlen]),
      show findUser { st with trace := st.trace ++ [DbEvent.usersRead user_id] } user_id =
        some u from hfind]
    dsimp only
    rw [if_neg (by simp [htr]), if_pos hne]

theorem pin_gate_witness :
    create_transfer exState "u1"
        { pin := some (.pstr "654321"), from_account_id := some "a1",
          amount := some (.anum 100), transfer_type := some "internal",
          to_account_id := some "a2" } =
      (.err 403 "Invalid transaction PIN",
       { exState with trace := exState.trace ++ [.usersRead "u1"] }) :=
  (pin_gate exState "u1"
      { pin := some (.pstr "654321"), from_account_id := some "a1",
        amount := some (.anum 100), transfer_type := some "internal",
        to_account_id := some "a2" }).2.2.2 "654321" exUser
    rfl (by decide) (by decide) (by decide) (by decide) (by decide)

/-- C2: a transfer request that passes the PIN gate and field validation
but whose amount exceeds the source account's balance is answered with the
400 `Insufficient funds` error and performs no state change: the returned
state carries the unchanged users, accounts, transfers, transactions and
notifications tables, and its trace extends the initial one by exactly the
two reads (users read for the PIN, source-account ownership lookup) — no
balance write, no transaction insert, no transfer insert, no notification. -/
theorem insufficient_funds_rejected (st : BankState) (user_id : String) (data : TransferReq)
    (u : UserRec) (p : String) (af : AmountField) (D : Rat) (fid : String) (acct : Account)
    (hpin : data.pin = some (.pstr p)) (hdig : pyStrIsDigit p = true) (hlen : p.length = 6)
    (hfind : findUser st user_id = some u) (hstored : u.transaction_pin_hash = some p)
    (hpne : p ≠ "")
    (hfid : data.from_account_id = some fid) (hfidne : fid ≠ "")
    (hamt : data.amount = some af) (htruthy : amountTruthy data.amount = true)
    (hparse : pyFloat af = some D)
    (hpos : 0 < D) (hmax : D ≤ 1000000) (hmin : 1 / 100 ≤ D)
    (htype : data.transfer_type.getD "internal" = "internal" ∨
      data.transfer_type.getD "internal" = "external" ∨
      data.transfer_type.getD "internal" = "p2p")
    (hacct : findAccount st fid user_id = some acct)
    (hbal : acct.balance < D) :
    create_transfer st user_id data =
      (.err 400 "Insufficient funds",
       { st with trace := st.trace ++ [.usersRead user_id, .accountLookup fid user_id] }) := by
  rw [create_transfer, hpin]
  dsimp only
  rw [if_neg (by simp [pinTruthy, hpne]), if_neg (by simp [hdig, hlen]),
    show findUser { st with trace := st.trace ++ [DbEvent.usersRead user_id] } user_id =
      some u from hfind]
  dsimp only
  rw [if_neg (by simp [hstored, truthyStr, hpne]), if_neg (by simp [hstored])]
  rw [createTransferValidated, hfid, hamt]
  dsimp only
  rw [if_neg (by simp [truthyStr, hfidne]), if_neg (by rw [hamt] at htruthy; simp [htruthy])]
  simp only [Option.getD_some, hparse]
  rw [if_neg (by exact not_le.mpr hpos), if_neg (by exact not_lt.mpr hmax),
    if_neg (by rw [pyCent_eq]; exact not_lt.mpr hmin), if_neg (not_not_intro htype)]
  rw [verify_account_ownership]
  rw [show findAccount { st with trace := st.trace ++ [DbEvent.usersRead user_id] } fid user_id =
    some acct from hacct]
  dsimp only
  rw [check_sufficient_balance, if_pos hbal]
  simp

theorem insufficient_funds_rejected_witness :
    create_transfer exState "u1"
        { pin := some (.pstr "123456"), from_account_id := some "a1",
          amount := some (.anum 501), transfer_type := some "internal",
          to_account_id := some "a2" } =
      (.err 400 "Insufficient funds",
       { exState with
         trace := exState.trace ++ [.usersRead "u1", .accountLookup "a1" "u1"] }) :=
  insufficient_funds_rejected exState "u1"
    { pin := some (.pstr "123456"), from_account_id := some "a1",
      amount := some (.anum 501), transfer_type := some "internal",
      to_account_id := some "a2" }
    exUser "123456" (.anum 501) 501 "a1" exAcct
    rfl (by decide) (by decide) (by decide) (by decide) (by decide) rfl (by decide)
    rfl (by norm_num [amountTruthy]) rfl
    (by norm_num) (by norm_num) (by norm_num) (by decide) (by decide)
    (by norm_num [exAcct])

/-- C5 counterexample: an external transfer with the 5-digit routing number
`"12345"` is rejected with the 400 routing-number validation error, but the
rejection does not occur before any account lookup: the handler has already
issued the source-account ownership lookup (`accountLookup "a1" "u1"` is in
the trace of the run) before reaching the routing check. -/
theorem routing_after_lookup_cex :
    (create_transfer exState "u1"
        { pin := some (.pstr "123456"), from_account_id := some "a1",
          amount := some (.anum 100), transfer_type := some "external",
          to_external := some { account_number := "6789", routing_number := "12345" } }).1 =
      .err 400 "Invalid routing number (must be 9 digits)" ∧
    DbEvent.accountLookup "a1" "u1" ∈
      (create_transfer exState "u1"
        { pin := some (.pstr "123456"), from_account_id := some "a1",
          amount := some (.anum 100), transfer_type := some "external",
          to_external := some { account_number := "6789", routing_number := "12345" } }).2.trace := by
  refine ⟨by decide, by decide⟩

/-- C5 (amended): an external transfer request that passes the PIN gate,
field validation and the source-account balance check but whose routing
number is not exactly 9 digits is rejected with the 400
`Invalid routing number (must be 9 digits)` validation error.  The rejection
occurs after the source-account ownership lookup (which the route performs
first, as the counterexample records) but before any destination processing
and before any state change: the returned state carries the unchanged
tables, and its trace extends the initial one by exactly the users read and
the source-account lookup. -/
theorem routing_validation (st : BankState) (user_id : String) (data : TransferReq)
    (u : UserRec) (p : String) (af : AmountField) (D : Rat) (fid : String) (acct : Account)
    (hpin : data.pin = some (.pstr p)) (hdig : pyStrIsDigit p = true) (hlen : p.length = 6)
    (hfind : findUser st user_id = some u) (hstored : u.transaction_pin_hash = some p)
    (hpne : p ≠ "")
    (hfid : data.from_account_id = some fid) (hfidne : fid ≠ "")
    (hamt : data.amount = some af) (htruthy : amountTruthy data.amount = true)
    (hparse : pyFloat af = some D)
    (hpos : 0 < D) (hmax : D ≤ 1000000) (hmin : 1 / 100 ≤ D)
    (htype : data.transfer_type.getD "internal" = "external")
    (hacct : findAccount st fid user_id = some acct)
    (hbal : ¬ acct.balance < D)
    (hanum : (data.to_external.getD {}).account_number ≠ "")
    (hrnum : (data.to_external.getD {}).routing_number ≠ "")
    (hbad : (data.to_external.getD {}).routing_number.length ≠ 9 ∨
      pyStrIsDigit (data.to_external.getD {}).routing_number = false) :
    create_transfer st user_id data =
      (.err 400 "Invalid routing number (must be 9 digits)",
       { st with trace := st.trace ++ [.usersRead user_id, .accountLookup fid user_id] }) := by
  rw [create_transfer, hpin]
  dsimp only
  rw [if_neg (by simp [pinTruthy, hpne]), if_neg (by simp [hdig, hlen]),
    show findUser { st with trace := st.trace ++ [DbEvent.usersRead user_id] } user_id =
      some u from hfind]
  dsimp only
  rw [if_neg (by simp [hstored, truthyStr, hpne]), if_neg (by simp [hstored])]
  rw [createTransferValidated, hfid, hamt]
  dsimp only
  rw [if_neg (by simp [truthyStr, hfidne]), if_neg (by rw [hamt] at htruthy; simp [htruthy])]
  simp only [Option.getD_some, hparse, htype]
  rw [if_neg (by exact not_le.mpr hpos), if_neg (by exact not_lt.mpr hmax),
    if_neg (by rw [pyCent_eq]; exact not_lt.mpr hmin),
    if_neg (by simp)]
  rw [verify_account_ownership]
  rw [show findAccount { st with trace := st.trace ++ [DbEvent.usersRead user_id] } fid user_id =
    some acct from hacct]
  dsimp only
  rw [check_sufficient_balance, if_neg hbal]
  dsimp only
  rw [createTransferBranch, if_neg (by simp), if_pos rfl,
    if_neg (by
      rintro (h | h)
      · exact hanum h
      · exact hrnum h),
    if_pos hbad]
  simp

theorem routing_validation_witness :
    create_transfer exState "u1"
        { pin := some (.pstr "123456"), from_account_id := some "a1",
          amount := some (.anum 250), transfer_type := some "external",
          to_external := some { account_number := "99887766", routing_number := "12345" } } =
      (.err 400 "Invalid routing number (must be 9 digits)",
       { exState with
         trace := exState.trace ++ [.usersRead "u1", .accountLookup "a1" "u1"] }) :=
  routing_validation exState "u1"
    { pin := some (.pstr "123456"), from_account_id := some "a1",
      amount := some (.anum 250), transfer_type := some "external",
      to_external := some { account_number := "99887766", routing_number := "12345" } }
    exUser "123456" (.anum 250) 250 "a1" exAcct
    rfl (by decide) (by decide) (by decide) (by decide) (by decide) rfl (by decide)
    rfl (by norm_num [amountTruthy]) rfl
    (by norm_num) (by norm_num) (by norm_num) (by decide) (by decide)
    (by norm_num [exAcct]) (by decide) (by decide) (by decide)

/-! Helper lemmas for the balance-update writes of `create_transfer`. -/

theorem find?_balanceMap (l : List Account) (target aid : String) (b : Rat) :
    (l.map (fun a => if a.id == target then { a with balance := b } else a)).find?
      (fun a => a.id == aid) =
    (l.find? (fun a => a.id == aid)).map
      (fun a => if a.id == target then { a with balance := b } else a) := by
  induction l with
  | nil => rfl
  | cons hd tl ih =>
    by_cases h : (hd.id == aid) = true
    · have h2 : ((if (hd.id == target) = true then { hd with balance := b } else hd).id == aid)
          = true := by split <;> simpa using h
      simp only [List.map_cons, List.find?_cons, h, h2]
      rfl
    · have h' : (hd.id == aid) = false := by simpa using h
      have h2 : ((if (hd.id == target) = true then { hd with balance := b } else hd).id == aid)
          = false := by split <;> simpa using h
      simp only [List.map_cons, List.find?_cons, h', h2, ih]

/-- Behaviour of the execution stage of `create_transfer` once every check
has passed: the response is the inserted transfer (201), the source balance
is written to `balance - amount`, exactly one debit transaction for the
source account is appended, and the trace places that transaction insert
strictly after the balance write. -/
theorem createTransferExec_spec (st : BankState) (user_id : String) (data : TransferReq)
    (ttype description : String) (from_account : Account) (D : Rat)
    (recipient status : String) (to_account : Option Account) (fid : String)
    (hfid : data.from_account_id = some fid)
    (hfirst : st.accounts.find? (fun a => a.id == fid) = some from_account)
    (hsafe : ttype = "internal" → data.to_account_id.getD "" ≠ fid) :
    (∃ td, (createTransferExec st user_id data ttype description from_account D recipient
        status to_account).1 = .created td) ∧
    accountBalance (createTransferExec st user_id data ttype description from_account D
        recipient status to_account).2 fid = some (from_account.balance - D) ∧
    (∃ desc added,
      (createTransferExec st user_id data ttype description from_account D recipient
          status to_account).2.transactions = st.transactions ++ added ∧
      added.filter (fun r => r.account_id == fid && r.ty == "debit") =
        [{ account_id := fid, ty := "debit", amount := D, description := desc,
           category := "transfer" }]) ∧
    (∃ tr1 tr2,
      (createTransferExec st user_id data ttype description from_account D recipient
          status to_account).2.trace =
        st.trace ++ tr1 ++ [DbEvent.balanceWrite fid (from_account.balance - D)] ++ tr2 ∧
      (∀ e ∈ tr1, ∀ ty₂ amt, e ≠ DbEvent.txInsert fid ty₂ amt) ∧
      DbEvent.txInsert fid "debit" D ∈ tr2) := by
  have hbeq : (from_account.id == fid) = true := by simpa using List.find?_some hfirst
  have hfid_eq : from_account.id = fid := by simpa using hbeq
  unfold createTransferExec update_account_balance create_transaction_record
  rw [hfid]
  simp only [Option.getD_some]
  by_cases hcred : (ttype = "internal" ∧ truthyStr data.to_account_id = true)
  · rw [if_pos hcred]
    rcases to_account with _ | toAcc
    · dsimp only
      obtain ⟨hu, ha, ht, htf, Δ, hΔ⟩ := notify_user_state _ user_id "transfer"
        (transferMessage D recipient status) (some "Transfer Confirmation")
        (some (transfer_confirmation_email D (from_account.balance - D) recipient ttype status))
      refine ⟨⟨_, rfl⟩, ?_, ?_, ?_⟩
      · rw [accountBalance, ha]
        dsimp only
        rw [find?_balanceMap, hfirst, Option.map_some', if_pos hbeq]
        rfl
      · refine ⟨(if description != "" then description else "Transfer to " ++ recipient),
          [{ account_id := fid, ty := "debit", amount := D,
                      description := (if description != "" then description
                        else "Transfer to " ++ recipient), category := "transfer" }], ?_, ?_⟩
        · rw [ht]
        · simp
      · refine ⟨[DbEvent.transferInsert { user_id := user_id, from_account_id := fid, to_account_id := data.to_account_id, to_external := data.to_external.getD {}, amount := D, transfer_type := ttype, status := status }], DbEvent.txInsert fid "debit" D :: Δ, ?_, ?_, ?_⟩
        · rw [hΔ]
          dsimp only
          simp
        · rintro e he ty₂ amt
          simp at he
          subst he
          simp
        · simp
    · dsimp only
      obtain ⟨hu, ha, ht, htf, Δ, hΔ⟩ := notify_user_state _ user_id "transfer"
        (transferMessage D recipient status) (some "Transfer Confirmation")
        (some (transfer_confirmation_email D (from_account.balance - D) recipient ttype status))
      have htid : data.to_account_id.getD "" ≠ fid := hsafe hcred.1
      refine ⟨⟨_, rfl⟩, ?_, ?_, ?_⟩
      · rw [accountBalance, ha]
        dsimp only
        rw [find?_balanceMap, find?_balanceMap, hfirst, Option.map_some', Option.map_some',
          if_pos hbeq]
        rw [if_neg (by simp [hfid_eq]; exact fun h => htid h.symm)]
        rfl
      · refine ⟨(if description != "" then description else "Transfer to " ++ recipient),
          [{ account_id := fid, ty := "debit", amount := D,
                      description := (if description != "" then description
                        else "Transfer to " ++ recipient), category := "transfer" },
                    { account_id := data.to_account_id.getD "", ty := "credit", amount := D,
                      description := "Transfer from " ++ from_account.account_type ++ " account",
                      category := "transfer" }], ?_, ?_⟩
        · rw [ht, List.append_assoc]
          rfl
        · by_cases hd : description = "" <;> simp [hd, List.filter_cons]
      · refine ⟨[DbEvent.transferInsert { user_id := user_id, from_account_id := fid, to_account_id := data.to_account_id, to_external := data.to_external.getD {}, amount := D, transfer_type := ttype, status := status }],
          DbEvent.txInsert fid "debit" D ::
            (DbEvent.balanceWrite (data.to_account_id.getD "") (toAcc.balance + D) ::
              DbEvent.txInsert (data.to_account_id.getD "") "credit" D :: Δ), ?_, ?_, ?_⟩
        · rw [hΔ]
          dsimp only
          simp
        · rintro e he ty₂ amt
          simp at he
          subst he
          simp
        · simp
  · rw [if_neg hcred]
    obtain ⟨hu, ha, ht, htf, Δ, hΔ⟩ := notify_user_state _ user_id "transfer"
      (transferMessage D recipient status) (some "Transfer Confirmation")
      (some (transfer_confirmation_email D (from_account.balance - D) recipient ttype status))
    refine ⟨⟨_, rfl⟩, ?_, ?_, ?_⟩
    · rw [accountBalance, ha]
      dsimp only
      rw [find?_balanceMap, hfirst, Option.map_some', if_pos hbeq]
      rfl
    · refine ⟨(if description != "" then description else "Transfer to " ++ recipient),
          [{ account_id := fid, ty := "debit", amount := D,
                    description := (if description != "" then description
                      else "Transfer to " ++ recipient), category := "transfer" }], ?_, ?_⟩
      · rw [ht]
      · simp
    · refine ⟨[DbEvent.transferInsert { user_id := user_id, from_account_id := fid, to_account_id := data.to_account_id, to_external := data.to_external.getD {}, amount := D, transfer_type := ttype, status := status }], DbEvent.txInsert fid "debit" D :: Δ, ?_, ?_, ?_⟩
      · rw [hΔ]
        dsimp only
        simp
      · rintro e he ty₂ amt
        simp at he
        subst he
        simp
      · simp

/-- Reduction of `create_transfer` to its per-type branch stage for a
request that passes the PIN gate, field validation, the source ownership
lookup and the balance check. -/
theorem create_transfer_to_branch (st : BankState) (user_id : String) (data : TransferReq)
    (u : UserRec) (p : String) (af : AmountField) (D : Rat) (fid : String) (acct : Account)
    (hpin : data.pin = some (.pstr p)) (hdig : pyStrIsDigit p = true) (hlen : p.length = 6)
    (hfind : findUser st user_id = some u) (hstored : u.transaction_pin_hash = some p)
    (hpne : p ≠ "")
    (hfid : data.from_account_id = some fid) (hfidne : fid ≠ "")
    (hamt : data.amount = some af) (htruthy : amountTruthy data.amount = true)
    (hparse : pyFloat af = some D)
    (hpos : 0 < D) (hmax : D ≤ 1000000) (hmin : 1 / 100 ≤ D)
    (htype : data.transfer_type.getD "internal" = "internal" ∨
      data.transfer_type.getD "internal" = "external" ∨
      data.transfer_type.getD "internal" = "p2p")
    (hacct : findAccount st fid user_id = some acct)
    (hbal : ¬ acct.balance < D) :
    create_transfer st user_id data =
      createTransferBranch
        { st with trace := st.trace ++ [DbEvent.usersRead user_id] ++
            [DbEvent.accountLookup fid user_id] }
        user_id data (data.transfer_type.getD "internal")
        (pySlice200 (pyStrip (data.description.getD ""))) acct D := by
  rw [create_transfer, hpin]
  dsimp only
  rw [if_neg (by simp [pinTruthy, hpne]), if_neg (by simp [hdig, hlen]),
    show findUser { st with trace := st.trace ++ [DbEvent.usersRead user_id] } user_id =
      some u from hfind]
  dsimp only
  rw [if_neg (by simp [hstored, truthyStr, hpne]), if_neg (by simp [hstored])]
  rw [createTransferValidated, hfid, hamt]
  dsimp only
  rw [if_neg (by simp [truthyStr, hfidne]), if_neg (by rw [hamt] at htruthy; simp [htruthy])]
  simp only [Option.getD_some, hparse]
  rw [if_neg (by exact not_le.mpr hpos), if_neg (by exact not_lt.mpr hmax),
    if_neg (by rw [pyCent_eq]; exact not_lt.mpr hmin), if_neg (not_not_intro htype)]
  rw [verify_account_ownership]
  rw [show findAccount { st with trace := st.trace ++ [DbEvent.usersRead user_id] } fid user_id =
    some acct from hacct]
  dsimp only
  rw [check_sufficient_balance, if_neg hbal]

/-- C1 (amended): a transfer request that passes the PIN gate, ownership and
validation checks and — for internal transfers — names a destination account
different from the source, succeeds (201 with the inserted transfer); it
leaves the source account's stored balance at `B - D`, appends exactly one
new debit Transaction of amount `D` for the source account among the added
rows, and the trace shows the debit transaction insert issued strictly after
the source balance write, never before it.  (Without the
destination-differs-from-source proviso the balance clause fails: the
counterexample records an internal self-transfer that leaves `B + D`.) -/
theorem debit_postcondition (st : BankState) (user_id : String) (data : TransferReq)
    (u : UserRec) (p : String) (af : AmountField) (D : Rat) (fid : String) (acct : Account)
    (hpin : data.pin = some (.pstr p)) (hdig : pyStrIsDigit p = true) (hlen : p.length = 6)
    (hfind : findUser st user_id = some u) (hstored : u.transaction_pin_hash = some p)
    (hpne : p ≠ "")
    (hfid : data.from_account_id = some fid) (hfidne : fid ≠ "")
    (hamt : data.amount = some af) (htruthy : amountTruthy data.amount = true)
    (hparse : pyFloat af = some D)
    (hpos : 0 < D) (hmax : D ≤ 1000000) (hmin : 1 / 100 ≤ D)
    (hacct : findAccount st fid user_id = some acct)
    (hfirst : st.accounts.find? (fun a => a.id == fid) = some acct)
    (hbal : ¬ acct.balance < D)
    (hbranch :
      (data.transfer_type.getD "internal" = "internal" ∧
        ∃ tid toAcc, data.to_account_id = some tid ∧ tid ≠ "" ∧
          findAccount st tid user_id = some toAcc ∧ tid ≠ fid) ∨
      (data.transfer_type.getD "internal" = "external" ∧
        (data.to_external.getD {}).account_number ≠ "" ∧
        (data.to_external.getD {}).routing_number.length = 9 ∧
        pyStrIsDigit (data.to_external.getD {}).routing_number = true ∧
        pyStrIsDigit (data.to_external.getD {}).account_number = true ∧
        ¬ (data.to_external.getD {}).account_number.length < 4) ∨
      (data.transfer_type.getD "internal" = "p2p" ∧
        ¬ ((data.to_external.getD {}).email = "" ∧ (data.to_external.getD {}).phone = ""))) :
    (∃ td, (create_transfer st user_id data).1 = .created td) ∧
    accountBalance (create_transfer st user_id data).2 fid = some (acct.balance - D) ∧
    (∃ desc added, (create_transfer st user_id data).2.transactions =
        st.transactions ++ added ∧
      added.filter (fun r => r.account_id == fid && r.ty == "debit") =
        [{ account_id := fid, ty := "debit", amount := D, description := desc,
           category := "transfer" }]) ∧
    (∃ tr1 tr2, (create_transfer st user_id data).2.trace =
        st.trace ++ tr1 ++ [DbEvent.balanceWrite fid (acct.balance - D)] ++ tr2 ∧
      (∀ e ∈ tr1, ∀ ty₂ amt, e ≠ DbEvent.txInsert fid ty₂ amt) ∧
      DbEvent.txInsert fid "debit" D ∈ tr2) := by
  rw [create_transfer_to_branch st user_id data u p af D fid acct hpin hdig hlen hfind hstored
    hpne hfid hfidne hamt htruthy hparse hpos hmax hmin
    (by rcases hbranch with ⟨h, _⟩ | ⟨h, _⟩ | ⟨h, _⟩
        · exact Or.inl h
        · exact Or.inr (Or.inl h)
        · exact Or.inr (Or.inr h)) hacct hbal]
  rcases hbranch with ⟨htype, tid, toAcc, htid, htidne, htoAcc, hne⟩ |
    ⟨htype, hanum, hrlen, hrdig, hadig, halen⟩ | ⟨htype, hp2p⟩
  · -- internal transfer to a distinct destination account
    rw [htype, createTransferBranch, if_pos rfl,
      if_neg (by simp [truthyStr, htid, htidne]), verify_account_ownership, htid]
    simp only [Option.getD_some]
    rw [show findAccount
        { st with trace := st.trace ++ [DbEvent.usersRead user_id] ++
            [DbEvent.accountLookup fid user_id] } tid user_id =
      some toAcc from htoAcc]
    dsimp only
    obtain ⟨hsucc, hbalc, htxs, tr1, tr2, htr, hno, hmem⟩ :=
      createTransferExec_spec
        { st with trace := st.trace ++ [DbEvent.usersRead user_id] ++
            [DbEvent.accountLookup fid user_id] ++ [DbEvent.accountLookup tid user_id] }
        user_id data "internal" (pySlice200 (pyStrip (data.description.getD "")))
        acct D (toAcc.account_type ++ " account ••••" ++ pyLast4 toAcc.account_number)
        "completed" (some toAcc) fid hfid hfirst
        (fun _ => by rw [htid, Option.getD_some]; exact hne)
    obtain ⟨desc, added, he, hf⟩ := htxs
    refine ⟨hsucc, hbalc, ⟨desc, added, he, hf⟩,
      [DbEvent.usersRead user_id, DbEvent.accountLookup fid user_id,
        DbEvent.accountLookup tid user_id] ++ tr1, tr2, ?_, ?_, hmem⟩
    · rw [htr]
      simp
    · intro e he' ty₂ amt
      rcases List.mem_append.mp he' with h | h
      · simp at h
        rcases h with h | h | h <;> subst h <;> simp
      · exact hno e h ty₂ amt
  · -- external transfer
    have hrne : (data.to_external.getD {}).routing_number ≠ "" := by
      intro h
      rw [h] at hrlen
      exact absurd hrlen (by decide)
    rw [htype, createTransferBranch, if_neg (by simp), if_pos rfl,
      if_neg (by
        rintro (h | h)
        · exact hanum h
        · exact hrne h),
      if_neg (by
        rintro (h | h)
        · exact h hrlen
        · rw [hrdig] at h
          exact absurd h (by decide)),
      if_neg (by
        rintro (h | h)
        · rw [hadig] at h
          exact absurd h (by decide)
        · exact halen h)]
    obtain ⟨hsucc, hbalc, htxs, tr1, tr2, htr, hno, hmem⟩ :=
      createTransferExec_spec
        { st with trace := st.trace ++ [DbEvent.usersRead user_id] ++
            [DbEvent.accountLookup fid user_id] }
        user_id data "external" (pySlice200 (pyStrip (data.description.getD "")))
        acct D
        (match (data.to_external.getD {}).name with
          | some n => n
          | none => "External account ••••" ++ pyLast4 (data.to_external.getD {}).account_number)
        "pending" none fid hfid hfirst (fun h => absurd h (by decide))
    obtain ⟨desc, added, he, hf⟩ := htxs
    refine ⟨hsucc, hbalc, ⟨desc, added, he, hf⟩,
      [DbEvent.usersRead user_id, DbEvent.accountLookup fid user_id] ++ tr1, tr2, ?_, ?_, hmem⟩
    · rw [htr]
      simp
    · intro e he' ty₂ amt
      rcases List.mem_append.mp he' with h | h
      · simp at h
        rcases h with h | h <;> subst h <;> simp
      · exact hno e h ty₂ amt
  · -- p2p transfer
    rw [htype, createTransferBranch, if_neg (by simp), if_neg (by simp),
      if_neg hp2p]
    obtain ⟨hsucc, hbalc, htxs, tr1, tr2, htr, hno, hmem⟩ :=
      createTransferExec_spec
        { st with trace := st.trace ++ [DbEvent.usersRead user_id] ++
            [DbEvent.accountLookup fid user_id] }
        user_id data "p2p" (pySlice200 (pyStrip (data.description.getD "")))
        acct D
        (if (data.to_external.getD {}).email != "" then (data.to_external.getD {}).email
          else (data.to_external.getD {}).phone)
        "pending" none fid hfid hfirst (fun h => absurd h (by decide))
    obtain ⟨desc, added, he, hf⟩ := htxs
    refine ⟨hsucc, hbalc, ⟨desc, added, he, hf⟩,
      [DbEvent.usersRead user_id, DbEvent.accountLookup fid user_id] ++ tr1, tr2, ?_, ?_, hmem⟩
    · rw [htr]
      simp
    · intro e he' ty₂ amt
      rcases List.mem_append.mp he' with h | h
      · simp at h
        rcases h with h | h <;> subst h <;> simp
      · exact hno e h ty₂ amt

/-- Execution stage of an internal transfer whose destination id equals the
source id: the later credit write overwrites the debit using the stale
balance read at ownership-check time, leaving `toAcc.balance + D`. -/
theorem createTransferExec_self (st : BankState) (user_id : String) (data : TransferReq)
    (description : String) (from_account toAcc : Account) (D : Rat)
    (recipient status : String) (fid : String)
    (hfid : data.from_account_id = some fid)
    (htid : data.to_account_id.getD "" = fid)
    (htruthy : truthyStr data.to_account_id = true)
    (hfirst : st.accounts.find? (fun a => a.id == fid) = some from_account) :
    accountBalance (createTransferExec st user_id data "internal" description from_account D
        recipient status (some toAcc)).2 fid = some (toAcc.balance + D) := by
  have hbeq : (from_account.id == fid) = true := by simpa using List.find?_some hfirst
  unfold createTransferExec update_account_balance create_transaction_record
  rw [hfid]
  simp only [Option.getD_some]
  rw [if_pos ⟨trivial, htruthy⟩]
  obtain ⟨hu, ha, ht, htf, Δ, hΔ⟩ := notify_user_state _ user_id "transfer"
    (transferMessage D recipient status) (some "Transfer Confirmation")
    (some (transfer_confirmation_email D (from_account.balance - D) recipient "internal" status))
  rw [accountBalance, ha]
  dsimp only
  rw [htid, find?_balanceMap, find?_balanceMap, hfirst, Option.map_some', Option.map_some',
    if_pos hbeq,
    if_pos (show (({ from_account with balance := from_account.balance - D } : Account).id ==
      fid) = true from hbeq)]
  rfl

/-- An internal self-transfer (destination account id equal to the source
account id) that passes every check leaves the account's stored balance at
`B + D`, not `B - D`: the credit write is based on the stale balance read
during the destination ownership check and overwrites the debit. -/
theorem create_transfer_self_credit (st : BankState) (user_id : String) (data : TransferReq)
    (u : UserRec) (p : String) (af : AmountField) (D : Rat) (fid : String) (acct : Account)
    (hpin : data.pin = some (.pstr p)) (hdig : pyStrIsDigit p = true) (hlen : p.length = 6)
    (hfind : findUser st user_id = some u) (hstored : u.transaction_pin_hash = some p)
    (hpne : p ≠ "")
    (hfid : data.from_account_id = some fid) (hfidne : fid ≠ "")
    (hamt : data.amount = some af) (htruthy : amountTruthy data.amount = true)
    (hparse : pyFloat af = some D)
    (hpos : 0 < D) (hmax : D ≤ 1000000) (hmin : 1 / 100 ≤ D)
    (htype : data.transfer_type.getD "internal" = "internal")
    (htid : data.to_account_id = some fid)
    (hacct : findAccount st fid user_id = some acct)
    (hfirst : st.accounts.find? (fun a => a.id == fid) = some acct)
    (hbal : ¬ acct.balance < D) :
    accountBalance (create_transfer st user_id data).2 fid = some (acct.balance + D) := by
  rw [create_transfer_to_branch st user_id data u p af D fid acct hpin hdig hlen hfind hstored
    hpne hfid hfidne hamt htruthy hparse hpos hmax hmin (Or.inl htype) hacct hbal]
  rw [htype, createTransferBranch, if_pos rfl,
    if_neg (by simp [truthyStr, htid, hfidne]), verify_account_ownership, htid]
  simp only [Option.getD_some]
  rw [show findAccount
      { st with trace := st.trace ++ [DbEvent.usersRead user_id] ++
          [DbEvent.accountLookup fid user_id] } fid user_id = some acct from hacct]
  dsimp only
  exact createTransferExec_self _ user_id data _ acct acct D _ _ fid hfid
    (by rw [htid, Option.getD_some]) (by simp [truthyStr, htid, hfidne]) hfirst

/-- C1 counterexample: the internal self-transfer of 100 from account `a1`
(balance 500) to `a1` itself passes the PIN, ownership and validation checks,
yet the final stored balance is `500 + 100 = 600`, not `500 - 100`. -/
theorem debit_postcondition_cex :
    accountBalance (create_transfer exState "u1"
        { pin := some (.pstr "123456"), from_account_id := some "a1",
          amount := some (.anum 100), transfer_type := some "internal",
          to_account_id := some "a1" }).2 "a1" = some 600 ∧
    (600 : Rat) ≠ 500 - 100 := by
  constructor
  · rw [create_transfer_self_credit exState "u1"
      { pin := some (.pstr "123456"), from_account_id := some "a1",
        amount := some (.anum 100), transfer_type := some "internal",
        to_account_id := some "a1" }
      exUser "123456" (.anum 100) 100 "a1" exAcct
      rfl (by decide) (by decide) rfl (by decide) (by decide) rfl (by decide) rfl
      (by norm_num [amountTruthy]) rfl (by norm_num) (by norm_num) (by norm_num)
      (by decide) rfl (by decide) (by decide) (by norm_num [exAcct])]
    norm_num [exAcct]
  · norm_num

theorem debit_postcondition_witness :
    accountBalance (create_transfer exState "u1"
        { pin := some (.pstr "123456"), from_account_id := some "a1",
          amount := some (.anum 100), transfer_type := some "internal",
          to_account_id := some "a2" }).2 "a1" = some (500 - 100) ∧
    (∃ td, (create_transfer exState "u1"
        { pin := some (.pstr "123456"), from_account_id := some "a1",
          amount := some (.anum 100), transfer_type := some "internal",
          to_account_id := some "a2" }).1 = .created td) :=
  ⟨(debit_postcondition exState "u1"
      { pin := some (.pstr "123456"), from_account_id := some "a1",
        amount := some (.anum 100), transfer_type := some "internal",
        to_account_id := some "a2" }
      exUser "123456" (.anum 100) 100 "a1" exAcct
      rfl (by decide) (by decide) rfl (by decide) (by decide) rfl (by decide) rfl
      (by norm_num [amountTruthy]) rfl (by norm_num) (by norm_num) (by norm_num)
      (by decide) (by decide) (by norm_num [exAcct])
      (Or.inl ⟨by decide, "a2", exAcct2, rfl, by decide, by decide, by decide⟩)).2.1,
   (debit_postcondition exState "u1"
      { pin := some (.pstr "123456"), from_account_id := some "a1",
        amount := some (.anum 100), transfer_type := some "internal",
        to_account_id := some "a2" }
      exUser "123456" (.anum 100) 100 "a1" exAcct
      rfl (by decide) (by decide) rfl (by decide) (by decide) rfl (by decide) rfl
      (by norm_num [amountTruthy]) rfl (by norm_num) (by norm_num) (by norm_num)
      (by decide) (by decide) (by norm_num [exAcct])
      (Or.inl ⟨by decide, "a2", exAcct2, rfl, by decide, by decide, by decide⟩)).1⟩

end Richemonte
